import Mathlib

/-
Verification of the vcf2csv record-normalization engine (main.go).

The Go source is shallowly embedded below.  Strings are modelled as Lean
strings and, where the Go code walks bytes or runes, as lists of characters;
every byte-level operation performed by the source on the inputs relevant
here only ever matches ASCII characters, for which the byte-level and
character-level views coincide.  The external go-vcard collaborator
(the record decoder) is modelled by its data types (Field, Card) and the
accessor functions convertCard calls on them (Name, Addresses, Value),
following the published semantics of that library.
-/

set_option autoImplicit false

namespace VcfCsv

/-! ## String helpers (models of the Go strings/unicode functions used) -/

/-- Characters accepted by unicode.IsSpace, as used by strings.TrimSpace. -/
def isGoSpace (c : Char) : Bool :=
  let n := c.toNat
  n = 9 || n = 10 || n = 11 || n = 12 || n = 13 || n = 32 || n = 0x85 ||
    n = 0xA0 || n = 0x1680 || (0x2000 ≤ n && n ≤ 0x200A) || n = 0x2028 ||
    n = 0x2029 || n = 0x202F || n = 0x205F || n = 0x3000

/-- Models strings.TrimSpace on the character list of a string. -/
def trimSpaceL (s : List Char) : List Char :=
  ((s.dropWhile isGoSpace).reverse.dropWhile isGoSpace).reverse

/-- Fuel-indexed worker for splitSep; the fuel is the length of the list,
which bounds the number of separator occurrences. -/
def splitSepFuel (sep : List Char) : Nat → List Char → List (List Char)
  | _, [] => [[]]
  | 0, s => [s]
  | fuel + 1, c :: rest =>
    if !sep.isEmpty && sep.isPrefixOf (c :: rest) then
      [] :: splitSepFuel sep fuel (rest.drop (sep.length - 1))
    else
      match splitSepFuel sep fuel rest with
      | [] => [[c]]
      | h :: t => (c :: h) :: t

/-- Models strings.Split with a non-empty separator: splits at each
leftmost, non-overlapping occurrence of sep. -/
def splitSep (sep s : List Char) : List (List Char) :=
  splitSepFuel sep s.length s

/-- Models strings.TrimPrefix: drops the prefix p when present. -/
def trimPre (p s : String) : String :=
  if p.data.isPrefixOf s.data then String.mk (s.data.drop p.data.length) else s

/-- Models strings.TrimSuffix: drops the suffix p when present. -/
def trimSuf (p s : String) : String :=
  if p.data.isSuffixOf s.data then
    String.mk (s.data.take (s.data.length - p.data.length))
  else s

/-- Models strings.ToLower restricted to ASCII case mapping, which is all
the source ever feeds it (vCard TYPE parameter values). -/
def goToLower (s : String) : String :=
  String.mk (s.data.map Char.toLower)

/-! ## Date parsing: model of Go time.Parse for the three fixed layouts
used by formatDate, namely "1/2", "2006-01-02" and "Jan _2, 2006". -/

def isDigitC (c : Char) : Bool := decide ('0' ≤ c) && decide (c ≤ '9')

def digitVal (c : Char) : Nat := c.toNat - '0'.toNat

/-- Models the getnum helper of Go time.Parse: reads a one- or two-digit
number (exactly two digits when fixed is true) and returns the rest. -/
def getnum (fixed : Bool) : List Char → Option (Nat × List Char)
  | [] => none
  | [c] => if isDigitC c && !fixed then some (digitVal c, []) else none
  | c1 :: c2 :: rest =>
    if isDigitC c1 then
      if isDigitC c2 then some (digitVal c1 * 10 + digitVal c2, rest)
      else if fixed then none
      else some (digitVal c1, c2 :: rest)
    else none

def isLeap (y : Nat) : Bool :=
  y % 4 = 0 && (!(y % 100 = 0) || y % 400 = 0)

/-- Days in month m of year y (Go time.daysIn). -/
def daysIn (m y : Nat) : Nat :=
  if m = 2 then (if isLeap y then 29 else 28)
  else if m = 4 ∨ m = 6 ∨ m = 9 ∨ m = 11 then 30
  else 31

/-- Models the stdLongYear case of Go time.Parse: exactly four decimal
digits (the source layouts never use signed years). -/
def parseYear4 : List Char → Option (Nat × List Char)
  | a :: b :: c :: d :: rest =>
    if isDigitC a && isDigitC b && isDigitC c && isDigitC d then
      some (digitVal a * 1000 + digitVal b * 100 + digitVal c * 10 + digitVal d, rest)
    else none
  | _ => none

/-- Models the byte comparison of Go time.match: equal, or both map to the
same lower-case ASCII letter. -/
def matchChar (c1 c2 : Char) : Bool :=
  c1 == c2 ||
    (let n1 := c1.toNat ||| 32
     let n2 := c2.toNat ||| 32
     n1 == n2 && decide (97 ≤ n1) && decide (n1 ≤ 122))

def matchList : List Char → List Char → Bool
  | [], [] => true
  | a :: as, b :: bs => matchChar a b && matchList as bs
  | _, _ => false

/-- Models the lookup helper of Go time.Parse: finds the first table entry
that is a case-insensitive prefix of s, returning its 1-based index. -/
def lookupName : List (List Char) → Nat → List Char → Option (Nat × List Char)
  | [], _, _ => none
  | v :: tab, i, s =>
    if decide (v.length ≤ s.length) && matchList (s.take v.length) v then
      some (i, s.drop v.length)
    else lookupName tab (i + 1) s

def monthTab : List (List Char) :=
  ["Jan".data, "Feb".data, "Mar".data, "Apr".data, "May".data, "Jun".data,
   "Jul".data, "Aug".data, "Sep".data, "Oct".data, "Nov".data, "Dec".data]

/-- Go time.Parse with layout "1/2": month/day, no year (year defaults
to 0, which is a leap year). -/
def parseLayoutMD (s : List Char) : Option (Nat × Nat) :=
  match getnum false s with
  | none => none
  | some (m, s1) =>
    if m < 1 ∨ 12 < m then none
    else
      match s1 with
      | '/' :: s2 =>
        match getnum false s2 with
        | none => none
        | some (d, s3) =>
          if s3 = [] ∧ 1 ≤ d ∧ d ≤ daysIn m 0 then some (m, d) else none
      | _ => none

/-- Go time.Parse with layout "2006-01-02": four-digit year, two-digit
month and day. -/
def parseLayoutISO (s : List Char) : Option (Nat × Nat × Nat) :=
  match parseYear4 s with
  | none => none
  | some (y, s1) =>
    match s1 with
    | '-' :: s2 =>
      match getnum true s2 with
      | none => none
      | some (m, s3) =>
        if m < 1 ∨ 12 < m then none
        else
          match s3 with
          | '-' :: s4 =>
            match getnum true s4 with
            | none => none
            | some (d, s5) =>
              if s5 = [] ∧ 1 ≤ d ∧ d ≤ daysIn m y then some (y, m, d) else none
          | _ => none
    | _ => none

/-- Go time.Parse with layout "Jan _2, 2006": abbreviated month name,
space, space-padded day, comma, space, four-digit year. -/
def parseLayoutLong (s : List Char) : Option (Nat × Nat × Nat) :=
  match lookupName monthTab 1 s with
  | none => none
  | some (m, s1) =>
    match s1 with
    | ' ' :: s2 =>
      let s3 := match s2 with
        | ' ' :: r => r
        | _ => s2
      match getnum false s3 with
      | none => none
      | some (d, s4) =>
        match s4 with
        | ',' :: ' ' :: s5 =>
          match parseYear4 s5 with
          | none => none
          | some (y, s6) =>
            if s6 = [] ∧ 1 ≤ d ∧ d ≤ daysIn m y then some (m, d, y) else none
        | _ => none
    | _ => none

/-- Abbreviated month name, as produced by Go time.Format with "Jan". -/
def monthAbbrev (m : Nat) : String :=
  ["Jan", "Feb", "Mar", "Apr", "May", "Jun",
   "Jul", "Aug", "Sep", "Oct", "Nov", "Dec"].getD (m - 1) ""

/-- Go time.Format with layout "Jan 2" applied to a parsed date. -/
def formatJanD (m d : Nat) : String :=
  monthAbbrev m ++ " " ++ toString d

/-- formatDate (main.go): tries the layouts "1/2", "2006-01-02" and
"Jan _2, 2006" in order; the first that parses is reformatted as "Jan 2",
otherwise the input is returned unchanged. -/
def formatDate (s : String) : String :=
  match parseLayoutMD s.data with
  | some (m, d) => formatJanD m d
  | none =>
    match parseLayoutISO s.data with
    | some (_, m, d) => formatJanD m d
    | none =>
      match parseLayoutLong s.data with
      | some (m, d, _) => formatJanD m d
      | none => s

/-! ## Value formatters of main.go -/

/-- formatValue (main.go): converts "Value - Name" to "Name: Value",
applying the optional transform fn to the extracted value; with no
separator the whole string goes through fn (or is returned as is). -/
def formatValue (s : String) (fn : Option (String → String)) : String :=
  let parts := splitSep " - ".data s.data
  if parts.length = 2 then
    let value0 := String.mk (trimSpaceL (parts.headD []))
    let value := match fn with
      | some f => f value0
      | none => value0
    let name := String.mk (trimSpaceL (parts.getD 1 []))
    name ++ ": " ++ value
  else
    match fn with
    | some f => f s
    | none => s

/-- formatBirthday (main.go): converts "1/2 - Name" to "Name: Jan 2". -/
def formatBirthday (s : String) : String :=
  formatValue s (some formatDate)

/-- formatPhone (main.go): keeps the digit characters of s; if exactly ten
remain they are reformatted as "(AAA) BBB-CCCC", otherwise s is returned
unchanged. -/
def formatPhone (s : String) : String :=
  let num := s.data.foldl (fun num r => if isDigitC r then num ++ [r] else num) []
  if num.length = 10 then
    "(" ++ String.mk (num.take 3) ++ ") " ++ String.mk ((num.drop 3).take 3) ++
      "-" ++ String.mk ((num.drop 6).take 4)
  else s

/-- normalizeLabel (main.go): strips the Apple bracket syntax around
X-ABLABEL values, one prefix and one suffix occurrence. -/
def normalizeLabel (v : String) : String :=
  trimSuf ">!$_" (trimPre "_$!<" v)

def LabelAnniversary : String := "Anniversary"

def LabelBirthday : String := "Birthday"

def LabelChild : String := "Child"

def LabelPartner : String := "Partner"

def LabelSpouse : String := "Spouse"

/-! ## Data model: the go-vcard types used by convertCard

A vcard.Field carries a value, a group identifier and a parameter map; a
vcard.Card maps a field name to the list of its occurrences in order
(a missing name maps to the empty list, like a Go map read).  convertCard
reads every field name before the source deletes it, and the deletions
only influence the debug listing of unused fields (diagnostic output, not
part of the returned Entry or error), so the model reads all field names
from the undeleted card. -/

structure Field where
  Value : String
  Group : String
  Params : String → List String

def Card := String → List Field

/-- Builds a card from an association list of field names, missing names
giving the empty occurrence list. -/
def mkCard (l : List (String × List Field)) : Card :=
  fun k =>
    match l.lookup k with
    | some v => v
    | none => []

/-- Entry (main.go): one row of the directory. -/
structure Entry where
  GivenName : String := ""
  FamilyName : String := ""
  Image : String := ""
  Address : List String := []
  Phone : List String := []
  Email : List String := []
  Birthday : List String := []
  Children : List String := []
  Anniversary : String := ""
deriving DecidableEq

/-- The name components convertCard reads (go-vcard vcard.Name); the
remaining three components of the N field are never used. -/
structure Name where
  FamilyName : String
  GivenName : String

/-- The address components convertCard reads (go-vcard vcard.Address). -/
structure Address where
  PostOfficeBox : String
  ExtendedAddress : String
  StreetAddress : String
  Locality : String
  Region : String
  PostalCode : String
  Country : String

/-- go-vcard maybeGet: component i of a semicolon-split value, or "". -/
def maybeGet (l : List String) (i : Nat) : String :=
  l.getD i ""

/-- go-vcard newName: the N value split on semicolons. -/
def newName (f : Field) : Name :=
  let components := (splitSep ";".data f.Value.data).map String.mk
  { FamilyName := maybeGet components 0, GivenName := maybeGet components 1 }

/-- go-vcard newAddress: the ADR value split on semicolons. -/
def newAddress (f : Field) : Address :=
  let components := (splitSep ";".data f.Value.data).map String.mk
  { PostOfficeBox := maybeGet components 0
    ExtendedAddress := maybeGet components 1
    StreetAddress := maybeGet components 2
    Locality := maybeGet components 3
    Region := maybeGet components 4
    PostalCode := maybeGet components 5
    Country := maybeGet components 6 }

/-- Models strconv.Atoi with its error ignored, as go-vcard Preferred
does: 0 on a syntax error, the clamped int64 value on overflow. -/
def goAtoi (s : String) : Int :=
  match s.data with
  | [] => 0
  | c :: rest =>
    let signed := if c = '-' then (true, rest)
      else if c = '+' then (false, rest)
      else (false, c :: rest)
    if signed.2 = [] ∨ signed.2.any (fun d => !isDigitC d) then 0
    else
      let v : Int := signed.2.foldl (fun a d => a * 10 + (digitVal d : Int)) 0
      let v := if signed.1 then -v else v
      if v > 2 ^ 63 - 1 then 2 ^ 63 - 1
      else if v < -(2 ^ 63) then -(2 ^ 63)
      else v

/-- Models strings.EqualFold restricted to ASCII folding, enough for the
constant "pref" it is compared against. -/
def eqFoldAscii (a b : String) : Bool :=
  matchList a.data b.data

/-- The preference weight go-vcard Preferred assigns to a field: its PREF
parameter as a number, else 1 when TYPE contains "pref", else 0. -/
def prefValue (f : Field) : Int :=
  let pref := (f.Params "PREF").headD ""
  if pref ≠ "" then goAtoi pref
  else if (f.Params "TYPE").any (fun t => eqFoldAscii t "pref") then 1
  else 0

/-- go-vcard Card.Preferred on a non-empty occurrence list: the first
field of maximal positive preference weight, else the first field. -/
def preferredField (f0 : Field) (fs : List Field) : Field :=
  ((f0 :: fs).foldl
    (fun acc f => if prefValue f > acc.2 then (f, prefValue f) else acc)
    (f0, (0 : Int))).1

/-- go-vcard Card.Name: the preferred N field parsed, or none when the
record has no N occurrence (in which case the Go caller dereferences a
nil pointer). -/
def cardName (card : Card) : Option Name :=
  match card "N" with
  | [] => none
  | f :: fs => some (newName (preferredField f fs))

/-- go-vcard Card.Value: the value of the first occurrence of field k,
or "" when the field is absent. -/
def cardValueFirst (card : Card) (k : String) : String :=
  match card k with
  | [] => ""
  | f :: _ => f.Value

/-- go-vcard Card.Addresses composed with the shape check is modelled in
processAddresses below; formatField (main.go) appends the non-suppressed
TYPE parameter values in parentheses. -/
def formatField (f : Field) (fn : Option (String → String)) : String :=
  (f.Params "TYPE").foldl
    (fun val t =>
      if t = "VOICE" ∨ t = "INTERNET" ∨ t = "pref" then val
      else val ++ " (" ++ goToLower t ++ ")")
    (formatValue f.Value fn)

/-! ## The normalization engine (convertCard, main.go) -/

/-- The error kinds convertCard produces, one per fmt.Errorf site:
duplicateValue for "duplicate anniversary value", unknownDateField for
"unknown date value", malformedRecord for "expected 1 name, found n",
unsupportedAddressShape for "address has additional information". -/
inductive CError where
  | duplicateValue
  | unknownDateField
  | malformedRecord
  | unsupportedAddressShape
deriving DecidableEq

/-- The result of running convertCard on one card: a normalized Entry, a
returned error, or a Go runtime panic (nil-pointer dereference). -/
inductive Outcome where
  | crash
  | err (e : CError)
  | ok (e : Entry)
deriving DecidableEq

/-- The label map built from the X-ABLABEL occurrences (main.go): each
occurrence assigns normalizeLabel of its value to its group, later
occurrences overwriting earlier ones; missing groups read as "". -/
def buildLabels (occs : List Field) : String → String :=
  occs.foldl (fun m f => fun g => if g = f.Group then normalizeLabel f.Value else m g)
    (fun _ => "")

/-- The X-ABDATE loop of convertCard, threading the anniversary value:
an occurrence whose group resolves to the Anniversary label sets the
anniversary (a second set is a duplicate error), any other occurrence is
an unknown date field. -/
def processXABDate (labels : String → String) : String → List Field → Except CError String
  | ann, [] => .ok ann
  | ann, f :: fs =>
    if labels f.Group = LabelAnniversary then
      if ann ≠ "" then .error .duplicateValue
      else processXABDate labels (formatDate f.Value) fs
    else .error .unknownDateField

/-- The two-line address string built for one ADR occurrence. -/
def addrLine (f : Field) : String :=
  (newAddress f).StreetAddress ++ "\n" ++ (newAddress f).Locality ++ ", " ++
    (newAddress f).Region ++ " " ++ (newAddress f).PostalCode

/-- The address loop of convertCard: rejects an occurrence carrying a
post-office-box or extended-address component, otherwise collects the
two-line strings in occurrence order. -/
def processAddresses : List Field → Except CError (List String)
  | [] => .ok []
  | f :: fs =>
    if (newAddress f).PostOfficeBox ≠ "" ∨ (newAddress f).ExtendedAddress ≠ "" then
      .error .unsupportedAddressShape
    else
      match processAddresses fs with
      | .error e => .error e
      | .ok rest => .ok (addrLine f :: rest)

/-- The X-ABRELATEDNAMES loop of convertCard, threading the birthday and
children lists and the anniversary value; occurrences with an unknown
label are retained in the record as unused (diagnostic only). -/
def processRelated (labels : String → String) :
    List Field → List String → List String → String →
    Except CError (List String × List String × String)
  | [], bs, cs, ann => .ok (bs, cs, ann)
  | f :: fs, bs, cs, ann =>
    if labels f.Group = LabelBirthday ∨ labels f.Group = LabelPartner ∨
        labels f.Group = LabelSpouse then
      processRelated labels fs (bs ++ [formatBirthday f.Value]) cs ann
    else if labels f.Group = LabelChild then
      processRelated labels fs bs (cs ++ [formatBirthday f.Value]) ann
    else if labels f.Group = LabelAnniversary then
      if ann ≠ "" then .error .duplicateValue
      else processRelated labels fs bs cs (formatDate f.Value)
    else
      processRelated labels fs bs cs ann

/-- The primary and spouse given names split out of the N given-name
component on the ampersand (main.go lines 104-109); parts beyond the
second are ignored and each kept part is trimmed. -/
def primarySpouse (nm : Name) : String × String :=
  let nameParts := splitSep "&".data nm.GivenName.data
  (String.mk (trimSpaceL (nameParts.headD [])),
   if nameParts.length > 1 then String.mk (trimSpaceL (nameParts.getD 1 [])) else "")

/-- The birthday list seeded from the BDAY field (main.go lines 129-137):
when the first BDAY value is non-empty it is date-formatted, and prefixed
with the primary name when a spouse name was split off. -/
def initialBirthdays (card : Card) (nm : Name) : List String :=
  let bdayVal := cardValueFirst card "BDAY"
  if bdayVal ≠ "" then
    [if (primarySpouse nm).2 ≠ "" then
        (primarySpouse nm).1 ++ ": " ++ formatDate bdayVal
      else formatDate bdayVal]
  else []

/-- The tail of convertCard after the name-cardinality check has passed:
addresses, birthdays, related names, email and phone, assembled into the
Entry (the Image field is never assigned and keeps its zero value). -/
def convertTail (card : Card) (labels : String → String) (ann1 : String)
    (nm : Name) : Outcome :=
  match processAddresses (card "ADR") with
  | .error e => .err e
  | .ok addrs =>
    match processRelated labels (card "X-ABRELATEDNAMES")
        (initialBirthdays card nm) [] ann1 with
    | .error e => .err e
    | .ok (bs, cs, ann2) =>
      .ok { GivenName := nm.GivenName
            FamilyName := nm.FamilyName
            Address := addrs
            Phone := (card "TEL").map (fun f => formatField f (some formatPhone))
            Email := (card "EMAIL").map (fun f => formatField f none)
            Birthday := bs
            Children := cs
            Anniversary := ann2 }

/-- convertCard (main.go, with the debug flag off): builds the label map,
processes the X-ABDATE field, dereferences Card.Name (a crash when the
record has no N occurrence), checks that exactly one N occurrence exists,
and runs the remaining extraction steps. -/
def convertCard (card : Card) : Outcome :=
  match processXABDate (buildLabels (card "X-ABLABEL")) "" (card "X-ABDATE") with
  | .error e => .err e
  | .ok ann1 =>
    match cardName card with
    | none => .crash
    | some nm =>
      if (card "N").length ≠ 1 then .err .malformedRecord
      else convertTail card (buildLabels (card "X-ABLABEL")) ann1 nm

/-- The nine-column csv record written for one Entry (main.go lines
37-47). -/
def csvRecord (e : Entry) : List String :=
  [e.GivenName, e.FamilyName, e.Image,
   String.intercalate "\n\n" e.Address,
   String.intercalate "\n" e.Phone,
   String.intercalate "\n" e.Email,
   String.intercalate "\n" e.Birthday,
   String.intercalate "\n" e.Children,
   e.Anniversary]

/-! ## Helper lemmas -/

theorem foldl_push_filter (p : Char → Bool) (l acc : List Char) :
    l.foldl (fun a c => if p c then a ++ [c] else a) acc = acc ++ l.filter p := by
  induction l generalizing acc with
  | nil => simp
  | cons c l ih =>
    by_cases h : p c <;> simp [h, ih, List.filter_cons]

theorem formatJanD_ne_empty (m d : Nat) : formatJanD m d ≠ "" := by
  intro h
  have hl := congrArg String.length h
  simp [formatJanD, String.length_append] at hl
  exact absurd hl.1.2 (by decide)

theorem formatDate_ne_empty (s : String) (h : s ≠ "") : formatDate s ≠ "" := by
  unfold formatDate
  split
  · exact formatJanD_ne_empty _ _
  · split
    · exact formatJanD_ne_empty _ _
    · split
      · exact formatJanD_ne_empty _ _
      · exact h

theorem preferredField_single (f : Field) : preferredField f [] = f := by
  unfold preferredField
  simp only [List.foldl]
  split <;> rfl

theorem cardName_single (card : Card) (f : Field) (h : card "N" = [f]) :
    cardName card = some (newName f) := by
  unfold cardName
  rw [h]
  show some (newName (preferredField f [])) = some (newName f)
  rw [preferredField_single]

theorem processAddresses_ok_map (l : List Field) (r : List String)
    (h : processAddresses l = .ok r) : r = l.map addrLine := by
  induction l generalizing r with
  | nil =>
    simp [processAddresses] at h
    simp [h]
  | cons f fs ih =>
    rw [processAddresses] at h
    split at h
    · exact absurd h (by simp)
    · split at h
      · exact absurd h (by simp)
      next rest heq =>
        simp only [Except.ok.injEq] at h
        subst h
        simp [ih rest heq]

theorem processAddresses_err (l : List Field)
    (h : ∃ f ∈ l, (newAddress f).PostOfficeBox ≠ "" ∨ (newAddress f).ExtendedAddress ≠ "") :
    processAddresses l = .error .unsupportedAddressShape := by
  induction l with
  | nil => simp at h
  | cons f fs ih =>
    rw [processAddresses]
    by_cases hf : (newAddress f).PostOfficeBox ≠ "" ∨ (newAddress f).ExtendedAddress ≠ ""
    · rw [if_pos hf]
    · rw [if_neg hf]
      obtain ⟨g, hg0, hbad⟩ := h
      rcases List.mem_cons.mp hg0 with hg | hg
      · subst hg
        exact absurd hbad hf
      · rw [ih ⟨g, hg, hbad⟩]

theorem processRelated_dup (labels : String → String) (l : List Field)
    (bs cs : List String) (ann : String) (hann : ann ≠ "")
    (h : ∃ f ∈ l, labels f.Group = LabelAnniversary) :
    processRelated labels l bs cs ann = .error .duplicateValue := by
  induction l generalizing bs cs with
  | nil => simp at h
  | cons f fs ih =>
    obtain ⟨g, hg0, hlab⟩ := h
    have hg := List.mem_cons.mp hg0
    rw [processRelated]
    by_cases h1 : labels f.Group = LabelBirthday ∨ labels f.Group = LabelPartner ∨
        labels f.Group = LabelSpouse
    · rw [if_pos h1]
      rcases hg with hg | hg
      · subst hg
        rcases h1 with h1 | h1 | h1 <;> rw [hlab] at h1 <;> simp [LabelAnniversary,
          LabelBirthday, LabelPartner, LabelSpouse] at h1
      · exact ih _ _ ⟨g, hg, hlab⟩
    · rw [if_neg h1]
      by_cases h2 : labels f.Group = LabelChild
      · rw [if_pos h2]
        rcases hg with hg | hg
        · subst hg
          rw [hlab] at h2
          simp [LabelAnniversary, LabelChild] at h2
        · exact ih _ _ ⟨g, hg, hlab⟩
      · rw [if_neg h2]
        by_cases h3 : labels f.Group = LabelAnniversary
        · rw [if_pos h3, if_pos hann]
        · rw [if_neg h3]
          rcases hg with hg | hg
          · subst hg
            exact absurd hlab h3
          · exact ih _ _ ⟨g, hg, hlab⟩

theorem convertCard_ok_shape (card : Card) (e : Entry)
    (h : convertCard card = Outcome.ok e) :
    ∃ f, card "N" = [f] ∧ e.GivenName = (newName f).GivenName ∧
      e.FamilyName = (newName f).FamilyName ∧ e.Image = "" ∧
      e.Address = (card "ADR").map addrLine := by
  unfold convertCard at h
  split at h
  · exact Outcome.noConfusion h
  next ann1 heq1 =>
    split at h
    · exact Outcome.noConfusion h
    next nm heq2 =>
      split at h
      · exact Outcome.noConfusion h
      next hlen =>
        have hlen1 : (card "N").length = 1 := not_ne_iff.mp hlen
        obtain ⟨f, hf⟩ := List.length_eq_one.mp hlen1
        have hnm : nm = newName f := by
          rw [cardName_single card f hf] at heq2
          injection heq2 with h2
          exact h2.symm
        unfold convertTail at h
        split at h
        · exact Outcome.noConfusion h
        next addrs heq3 =>
          split at h
          · exact Outcome.noConfusion h
          next bs cs ann2 heq4 =>
            simp only [Outcome.ok.injEq] at h
            subst h
            refine ⟨f, hf, ?_, ?_, rfl, ?_⟩
            · simp [hnm]
            · simp [hnm]
            · simpa using processAddresses_ok_map _ _ heq3

/-- Runs convertCard past the X-ABDATE step and the name checks when all
of them succeed. -/
theorem convertCard_run (card : Card) (ann1 : String) (nm : Name)
    (hx : processXABDate (buildLabels (card "X-ABLABEL")) "" (card "X-ABDATE") =
      .ok ann1)
    (hn : cardName card = some nm)
    (hlen : (card "N").length = 1) :
    convertCard card = convertTail card (buildLabels (card "X-ABLABEL")) ann1 nm := by
  unfold convertCard
  rw [hx, hn]
  simp [hlen]

/-! ## Claims -/

/-- The empty parameter map carried by the concrete test fields. -/
def p0 : String → List String := fun _ => []

/-- A record with no name-field occurrence at all. -/
def c1cardZero : Card := mkCard []

/-- A record with two name-field occurrences. -/
def c1cardTwo : Card :=
  mkCard [("N", [⟨"Smith;Jane", "", p0⟩, ⟨"Doe;Bob", "", p0⟩])]

/-- C1: the claim says both the zero-occurrence and the multi-occurrence
name cases fail with MalformedRecord.  The two-occurrence case does, but
the zero-occurrence case instead crashes: Card.Name is nil and the
GivenName dereference (main.go line 105) panics before the cardinality
check (line 111) can run, so no MalformedRecord error is produced. -/
theorem claim_C1 :
    convertCard c1cardZero = Outcome.crash ∧
    convertCard c1cardTwo = Outcome.err CError.malformedRecord :=
  ⟨rfl, rfl⟩

/-- A record with two name occurrences and one X-ABDATE occurrence whose
group resolves to no label. -/
def c2card : Card :=
  mkCard [("N", [⟨"Smith;Jane", "", p0⟩, ⟨"Doe;Bob", "", p0⟩]),
    ("X-ABDATE", [⟨"1/1", "g", p0⟩])]

/-- C2 counterexample: on a record with invalid name cardinality and an
unresolvable X-ABDATE occurrence, convertCard returns UnknownDateField,
not MalformedRecord as the claim states. -/
theorem claim_C2_cex :
    convertCard c2card = Outcome.err CError.unknownDateField ∧
    convertCard c2card ≠ Outcome.err CError.malformedRecord :=
  ⟨rfl, by decide⟩

/-- C2 amended: the X-ABDATE step runs before the name-cardinality check,
so whenever the first X-ABDATE occurrence has a group that does not
resolve to the Anniversary label, convertCard returns UnknownDateField
regardless of the name field, malformed or not. -/
theorem claim_C2 (card : Card) (f : Field) (rest : List Field)
    (h1 : card "X-ABDATE" = f :: rest)
    (h2 : buildLabels (card "X-ABLABEL") f.Group ≠ LabelAnniversary) :
    convertCard card = Outcome.err CError.unknownDateField := by
  unfold convertCard
  rw [h1, processXABDate, if_neg h2]

/-- A record with two name occurrences and an unresolvable X-ABDATE
occurrence, for instantiating the amended C2. -/
def c2wcard : Card :=
  mkCard [("N", [⟨"A;B", "", p0⟩, ⟨"C;D", "", p0⟩]),
    ("X-ABDATE", [⟨"2/2", "h", p0⟩])]

theorem claim_C2_witness :
    convertCard c2wcard = Outcome.err CError.unknownDateField :=
  claim_C2 c2wcard ⟨"2/2", "h", p0⟩ [] rfl (by decide)

/-- C4 counterexample: normalizeLabel strips at most one bracket layer per
application, so it is not idempotent on a doubly-bracketed input. -/
theorem claim_C4_cex :
    normalizeLabel (normalizeLabel "_$!<_$!<x") ≠ normalizeLabel "_$!<_$!<x" := by
  decide

/-- A normalized label that neither starts with the vendor bracket opener
nor ends with the closer is a fixed point of normalizeLabel. -/
theorem normalizeLabel_fixed (t : String)
    (h1 : "_$!<".data.isPrefixOf t.data = false)
    (h2 : ">!$_".data.isSuffixOf t.data = false) :
    normalizeLabel t = t := by
  simp [normalizeLabel, trimPre, trimSuf, h1, h2]

/-- C4 amended: normalizeLabel is idempotent on every string whose
normalization does not itself still start with the vendor bracket opener
or end with the closer (a doubly-bracketed label loses one layer per
application, see the counterexample); the two concrete equalities of the
claim hold. -/
theorem claim_C4 :
    (∀ s : String,
      "_$!<".data.isPrefixOf (normalizeLabel s).data = false →
      ">!$_".data.isSuffixOf (normalizeLabel s).data = false →
      normalizeLabel (normalizeLabel s) = normalizeLabel s) ∧
    normalizeLabel "_$!<Anniversary>!$_" = "Anniversary" ∧
    normalizeLabel "Anniversary" = "Anniversary" :=
  ⟨fun _ h1 h2 => normalizeLabel_fixed _ h1 h2, rfl, rfl⟩

theorem claim_C4_witness :
    normalizeLabel (normalizeLabel "Anniversary") = normalizeLabel "Anniversary" :=
  claim_C4.1 "Anniversary" (by decide) (by decide)

/-- C6: the three accepted layouts all canonicalize to "Mar 5" for the
same calendar date, and a value no layout parses is returned unchanged. -/
theorem claim_C6 :
    formatDate "3/5" = "Mar 5" ∧
    formatDate "2024-03-05" = "Mar 5" ∧
    formatDate "Mar 5, 2024" = "Mar 5" ∧
    formatDate "next tuesday" = "next tuesday" ∧
    (∀ s : String, parseLayoutMD s.data = none → parseLayoutISO s.data = none →
      parseLayoutLong s.data = none → formatDate s = s) := by
  refine ⟨rfl, rfl, rfl, rfl, ?_⟩
  intro s h1 h2 h3
  unfold formatDate
  rw [h1, h2, h3]

theorem claim_C6_witness : formatDate "next tuesday" = "next tuesday" :=
  claim_C6.2.2.2.2 "next tuesday" (by decide) (by decide) (by decide)

/-- C7: formatPhone keeps exactly the digit characters; with ten of them
it rebuilds the grouped form, with any other count (seven included) it
returns the input unchanged. -/
theorem claim_C7 :
    formatPhone "(555) 123-4567" = "(555) 123-4567" ∧
    formatPhone "5551234567" = "(555) 123-4567" ∧
    (∀ s : String, (s.data.filter isDigitC).length ≠ 10 → formatPhone s = s) ∧
    (∀ s : String, (s.data.filter isDigitC).length = 10 →
      formatPhone s = "(" ++ String.mk ((s.data.filter isDigitC).take 3) ++ ") " ++
        String.mk (((s.data.filter isDigitC).drop 3).take 3) ++ "-" ++
        String.mk (((s.data.filter isDigitC).drop 6).take 4)) := by
  refine ⟨rfl, rfl, ?_, ?_⟩
  · intro s h
    simp only [formatPhone]
    rw [foldl_push_filter, List.nil_append, if_neg h]
  · intro s h
    simp only [formatPhone]
    rw [foldl_push_filter, List.nil_append, if_pos h]

theorem claim_C7_witness : formatPhone "555-1234" = "555-1234" :=
  claim_C7.2.2.1 "555-1234" (by decide)

/-- A record where an empty-valued X-ABDATE anniversary occurrence is
followed by a related-name anniversary occurrence. -/
def c3card : Card :=
  mkCard [
    ("X-ABLABEL", [⟨"_$!<Anniversary>!$_", "g1", p0⟩, ⟨"Anniversary", "g2", p0⟩]),
    ("X-ABDATE", [⟨"", "g1", p0⟩]),
    ("N", [⟨"Smith;Jane", "", p0⟩]),
    ("X-ABRELATEDNAMES", [⟨"6/1", "g2", p0⟩])]

/-- The entry c3card normalizes to. -/
def c3entry : Entry :=
  { GivenName := "Jane", FamilyName := "Smith", Anniversary := "Jun 1" }

/-- C3 counterexample: two sources assign the anniversary on c3card (the
X-ABDATE occurrence stores formatDate of its empty value, then the
related-name occurrence assigns again), yet convertCard succeeds: the
duplicate check only tests non-emptiness, which the first assignment left
empty. -/
theorem claim_C3_cex :
    convertCard c3card = Outcome.ok c3entry ∧
    convertCard c3card ≠ Outcome.err CError.duplicateValue :=
  ⟨rfl, by decide⟩

/-- C3 amended: when the first anniversary source is a single X-ABDATE
occurrence with a non-empty value (so the stored formatted value is
non-empty), any later related-name occurrence whose group resolves to the
Anniversary label makes convertCard fail with the duplicate-value error,
on any record passing the name step (exactly one N occurrence) and the
address step (processAddresses succeeds on its address occurrences). -/
theorem claim_C3 (card : Card) (f1 : Field) (addrs : List String)
    (h1 : card "X-ABDATE" = [f1])
    (h2 : buildLabels (card "X-ABLABEL") f1.Group = LabelAnniversary)
    (h3 : f1.Value ≠ "")
    (h4 : (card "N").length = 1)
    (h5 : processAddresses (card "ADR") = .ok addrs)
    (h6 : ∃ f ∈ card "X-ABRELATEDNAMES",
      buildLabels (card "X-ABLABEL") f.Group = LabelAnniversary) :
    convertCard card = Outcome.err CError.duplicateValue := by
  obtain ⟨fn, hfn⟩ := List.length_eq_one.mp h4
  have hx : processXABDate (buildLabels (card "X-ABLABEL")) "" (card "X-ABDATE") =
      .ok (formatDate f1.Value) := by
    rw [h1, processXABDate, if_pos h2, if_neg (by simp), processXABDate]
  rw [convertCard_run card (formatDate f1.Value) (newName fn) hx
    (cardName_single card fn hfn) h4]
  unfold convertTail
  rw [h5]
  rw [processRelated_dup (buildLabels (card "X-ABLABEL")) _ _ _ _
    (formatDate_ne_empty _ h3) h6]

/-- A record with a non-empty X-ABDATE anniversary occurrence, a valid
address occurrence and a related-name anniversary occurrence, for
instantiating the amended C3. -/
def c3wcard : Card :=
  mkCard [
    ("X-ABLABEL", [⟨"_$!<Anniversary>!$_", "g1", p0⟩, ⟨"Anniversary", "g2", p0⟩]),
    ("X-ABDATE", [⟨"6/1", "g1", p0⟩]),
    ("N", [⟨"Smith;Jane", "", p0⟩]),
    ("ADR", [⟨";;1 Main St;Town;CA;90000;USA", "", p0⟩]),
    ("X-ABRELATEDNAMES", [⟨"Bob", "g2", p0⟩])]

theorem claim_C3_witness :
    convertCard c3wcard = Outcome.err CError.duplicateValue :=
  claim_C3 c3wcard ⟨"6/1", "g1", p0⟩ ["1 Main St\nTown, CA 90000"] rfl (by decide)
    (by decide) (by decide) rfl
    ⟨⟨"Bob", "g2", p0⟩, List.mem_singleton.mpr rfl, by decide⟩

/-- C5: a record with exactly one name occurrence that normalizes
successfully stores that occurrence's given-name and family-name
components verbatim in the Entry; the ampersand split is only a
derivation. -/
theorem claim_C5 (card : Card) (f : Field) (e : Entry)
    (h1 : card "N" = [f]) (h2 : convertCard card = Outcome.ok e) :
    e.GivenName = (newName f).GivenName ∧ e.FamilyName = (newName f).FamilyName := by
  obtain ⟨g, hg, hgiven, hfam, _, _⟩ := convertCard_ok_shape card e h2
  rw [h1] at hg
  injection hg with hgf _
  subst hgf
  exact ⟨hgiven, hfam⟩

/-- A record with one name occurrence whose given-name component holds an
ampersand-joined couple. -/
def c5card : Card := mkCard [("N", [⟨"Smith;Jane & Bob", "", p0⟩])]

/-- The entry c5card normalizes to. -/
def c5entry : Entry := { GivenName := "Jane & Bob", FamilyName := "Smith" }

theorem claim_C5_witness :
    c5entry.GivenName = (newName ⟨"Smith;Jane & Bob", "", p0⟩).GivenName ∧
    c5entry.FamilyName = (newName ⟨"Smith;Jane & Bob", "", p0⟩).FamilyName :=
  claim_C5 c5card ⟨"Smith;Jane & Bob", "", p0⟩ c5entry rfl rfl

/-- A record with two name occurrences and an address occurrence carrying
a post-office-box component. -/
def c8card : Card :=
  mkCard [
    ("N", [⟨"Smith;Jane", "", p0⟩, ⟨"Doe;Bob", "", p0⟩]),
    ("ADR", [⟨"POB 1;;123 Main St;Springfield;CA;90000;USA", "", p0⟩])]

/-- C8 counterexample: a record can contain an address with a non-empty
post-office-box component and still fail with MalformedRecord rather than
UnsupportedAddressShape, because the name-cardinality check runs before
the address loop. -/
theorem claim_C8_cex :
    convertCard c8card = Outcome.err CError.malformedRecord ∧
    convertCard c8card ≠ Outcome.err CError.unsupportedAddressShape :=
  ⟨rfl, by decide⟩

/-- C8 amended: on a record whose X-ABDATE step succeeds and whose name
cardinality is valid, an address occurrence with a non-empty
post-office-box or extended-address component makes convertCard fail with
UnsupportedAddressShape; and every successful normalization maps the
address occurrences in order to their two-line strings. -/
theorem claim_C8 (card : Card) :
    (∀ ann1 : String,
      processXABDate (buildLabels (card "X-ABLABEL")) "" (card "X-ABDATE") =
        .ok ann1 →
      (card "N").length = 1 →
      (∃ f ∈ card "ADR",
        (newAddress f).PostOfficeBox ≠ "" ∨ (newAddress f).ExtendedAddress ≠ "") →
      convertCard card = Outcome.err CError.unsupportedAddressShape) ∧
    (∀ e : Entry, convertCard card = Outcome.ok e →
      e.Address = (card "ADR").map addrLine) := by
  constructor
  · intro ann1 hx hlen hbad
    obtain ⟨fn, hfn⟩ := List.length_eq_one.mp hlen
    rw [convertCard_run card ann1 (newName fn) hx (cardName_single card fn hfn) hlen]
    unfold convertTail
    rw [processAddresses_err _ hbad]
  · intro e h
    obtain ⟨f, _, _, _, _, haddr⟩ := convertCard_ok_shape card e h
    exact haddr

/-- A record with one valid name occurrence and an address occurrence
carrying a post-office-box component. -/
def c8wcard : Card :=
  mkCard [
    ("N", [⟨"Smith;Jane", "", p0⟩]),
    ("ADR", [⟨"POB 1;;123 Main St;Springfield;CA;90000;USA", "", p0⟩])]

theorem claim_C8_witness :
    convertCard c8wcard = Outcome.err CError.unsupportedAddressShape :=
  (claim_C8 c8wcard).1 "" rfl rfl
    ⟨⟨"POB 1;;123 Main St;Springfield;CA;90000;USA", "", p0⟩,
      List.mem_singleton.mpr rfl, Or.inl (by decide)⟩

/-- A record with one valid name occurrence and a related-name occurrence
grouped to the Child label. -/
def c9card : Card :=
  mkCard [
    ("X-ABLABEL", [⟨"Child", "g", p0⟩]),
    ("N", [⟨"Smith;John", "", p0⟩]),
    ("X-ABRELATEDNAMES", [⟨"3/5 - Jane", "g", p0⟩])]

/-- The entry c9card normalizes to. -/
def c9entry : Entry :=
  { GivenName := "John", FamilyName := "Smith", Children := ["Jane: Mar 5"] }

/-- C9: a related-name occurrence with value "3/5 - Jane" whose group
resolves to the Child label appends exactly "Jane: Mar 5" to the children
list and leaves the birthday list untouched at that step; end to end,
c9card normalizes with children = ["Jane: Mar 5"] and no birthdays. -/
theorem claim_C9 :
    (∀ (labels : String → String) (g : String) (ps : String → List String)
      (rest : List Field) (bs cs : List String) (ann : String),
      labels g = LabelChild →
      processRelated labels (⟨"3/5 - Jane", g, ps⟩ :: rest) bs cs ann =
        processRelated labels rest bs (cs ++ ["Jane: Mar 5"]) ann) ∧
    convertCard c9card = Outcome.ok c9entry := by
  refine ⟨?_, rfl⟩
  intro labels g ps rest bs cs ann hl
  have hfb : formatBirthday "3/5 - Jane" = "Jane: Mar 5" := by decide
  simp only [processRelated, hl, hfb]
  simp [LabelChild, LabelBirthday, LabelPartner, LabelSpouse]

theorem claim_C9_witness :
    processRelated (buildLabels [⟨"Child", "g", p0⟩]) [⟨"3/5 - Jane", "g", p0⟩]
      [] [] "" =
    processRelated (buildLabels [⟨"Child", "g", p0⟩]) [] []
      ([] ++ ["Jane: Mar 5"]) "" :=
  claim_C9.1 (buildLabels [⟨"Child", "g", p0⟩]) "g" p0 [] [] [] "" (by decide)

/-- C10: no extraction step assigns the Image field, so every successful
normalization leaves it empty, and with it the third csv column. -/
theorem claim_C10 (card : Card) (e : Entry) (h : convertCard card = Outcome.ok e) :
    e.Image = "" ∧ (csvRecord e).getD 2 "missing" = "" := by
  obtain ⟨f, _, _, _, him, _⟩ := convertCard_ok_shape card e h
  exact ⟨him, by simp [csvRecord, him]⟩

/-- A minimal record that normalizes successfully. -/
def c10card : Card := mkCard [("N", [⟨"Smith;Jane", "", p0⟩])]

/-- The entry c10card normalizes to. -/
def c10entry : Entry := { GivenName := "Jane", FamilyName := "Smith" }

theorem claim_C10_witness :
    c10entry.Image = "" ∧ (csvRecord c10entry).getD 2 "missing" = "" :=
  claim_C10 c10card c10entry rfl

end VcfCsv
